import Mathlib

/-!
Verification of the BloodMoon_bot command-authorization-and-broadcast core.

The development shallowly embeds the two source files:

* `src/src/mastra/tools/telegramAdminTool.ts` — the admin oracle
  (`checkTelegramAdminTool`) and the standalone delivery tool
  (`sendTelegramMessageTool`).  Each tool's `execute` reads the bot token from
  the environment, performs one `fetch` + `response.json()` round trip, and
  maps the parsed data (or a caught exception) to a result record.  The
  embedding passes the environment token as an `Option String` and the round
  trip's outcome as a `Net` value, so a tool becomes a pure function of those.
* the workflow/agent file — the two workflow steps `useAgent` and `sendReply`
  and the workflow `telegramBotWorkflow` chaining them with `.then`.

The command policy itself lives in the agent's natural-language instructions
(executed by a language model, not by deterministic code), so `decide` and its
parsing helpers are modelled from the spec, as marked in their doc comments.
-/

namespace Bot

/-- Telegram chat identifier: `z.union([z.string(), z.number()])` in every
schema of the source — either a string or a number. -/
inductive ChatId where
  | str (s : String)
  | num (n : Int)
deriving DecidableEq, Repr

/-- Outcome of one external `fetch` + `response.json()` round trip, as seen by
the `try` block of a tool: either the parsed response data, or a thrown fault.
For a thrown fault, `some m` models a JavaScript `Error` whose `message` is
`m`, and `none` models a thrown non-`Error` value (the source distinguishes
the two with `error instanceof Error`). -/
inductive Net (α : Type) where
  | exn (message : Option String)
  | response (data : α)
deriving DecidableEq

/-- JavaScript truthiness of `process.env.X`: the variable can be undefined
(`none`) or hold a string; `if (!botToken)` treats undefined and the empty
string as falsy. -/
def jsTruthy : Option String → Bool
  | none => false
  | some s => !(s == "")

/-- JavaScript `a || b` where `a` is an optional string field of parsed JSON:
an absent field (undefined) and the empty string are falsy, so both fall back
to `b`. -/
def jsOr (a : Option String) (b : String) : String :=
  match a with
  | some s => if s == "" then b else s
  | none => b

/-- Parsed `result` object of a getChatMember response; its `status` field is
read with `data.result.status` and may be absent (undefined). -/
structure ChatMemberResult where
  status : Option String := none
deriving DecidableEq

/-- Parsed JSON body of a getChatMember response: `{ok, description?, result?}`. -/
structure ChatMemberResponse where
  ok : Bool
  description : Option String := none
  result : Option ChatMemberResult := none
deriving DecidableEq

/-- The verdict record returned by `checkTelegramAdminTool.execute`: matches
its `outputSchema` `{isAdmin, status?, error?}`. -/
structure AdminVerdict where
  isAdmin : Bool
  status : Option String := none
  error : Option String := none
deriving DecidableEq

/-- Error message of the TypeError thrown by `data.result.status` when
`data.result` is undefined; it is thrown inside the `try` block and converted
by the `catch` into a negative verdict. -/
def statusAccessFault : String := "Cannot read properties of undefined (reading 'status')"

/-- The check-telegram-admin tool, translated from
`src/src/mastra/tools/telegramAdminTool.ts` (`checkTelegramAdminTool.execute`).
`botToken` is `process.env.TELEGRAM_BOT_TOKEN`; `net` is the outcome of the
fetch to the getChatMember endpoint (the request body built from the tool's
context only determines the remote's answer, which `net` abstracts). -/
def checkTelegramAdminTool (botToken : Option String) (net : Net ChatMemberResponse) :
    AdminVerdict :=
  if !(jsTruthy botToken) then
    { isAdmin := false, error := some "Bot token not configured" }
  else
    match net with
    | .exn m => { isAdmin := false, error := some (m.getD "Unknown error") }
    | .response data =>
      if !data.ok then
        { isAdmin := false, error := some (jsOr data.description "Failed to check admin status") }
      else
        match data.result with
        | none => { isAdmin := false, error := some statusAccessFault }
        | some r =>
          { isAdmin := r.status == some "creator" || r.status == some "administrator",
            status := r.status }

/-- Parsed `result` object of a sendMessage response; `message_id` may be
absent (undefined), in which case `data.result.message_id` evaluates to
undefined without throwing. -/
structure SendResult where
  message_id : Option Nat := none
deriving DecidableEq

/-- Parsed JSON body of a sendMessage response: `{ok, description?, result?}`. -/
structure SendResponse where
  ok : Bool
  description : Option String := none
  result : Option SendResult := none
deriving DecidableEq

/-- Output record of the `send-reply` workflow step: its `outputSchema` is
`{success, messageId?}` — it has no error field at all. -/
structure StepOutcome where
  success : Bool
  messageId : Option Nat := none
deriving DecidableEq

/-- Output record of the `use-agent` workflow step: `{response, chatId}`. -/
structure AgentOutput where
  response : String
  chatId : ChatId
deriving DecidableEq

/-- The send-reply workflow step, translated from the workflow file
(`sendReply.execute`).  `inputData` is the agent step's output; `net` is the
outcome of the fetch to the sendMessage endpoint.  When `data.ok` holds but
`data.result` is undefined, `data.result.message_id` throws a TypeError that
the `catch` converts to `{success: false}`; when `data.result` is present but
lacks `message_id`, the step returns `{success: true, messageId: undefined}`. -/
def sendReply (botToken : Option String) (net : Net SendResponse)
    (_inputData : AgentOutput) : StepOutcome :=
  if !(jsTruthy botToken) then
    { success := false }
  else
    match net with
    | .exn _ => { success := false }
    | .response data =>
      if !data.ok then
        { success := false }
      else
        match data.result with
        | none => { success := false }
        | some r => { success := true, messageId := r.message_id }

/-- Output record of `sendTelegramMessageTool`: `{success, messageId?, error?}`. -/
structure SendOutcome where
  success : Bool
  messageId : Option Nat := none
  error : Option String := none
deriving DecidableEq

/-- Error message of the TypeError thrown by `data.result.message_id` when
`data.result` is undefined in the standalone send tool. -/
def messageIdAccessFault : String := "Cannot read properties of undefined (reading 'message_id')"

/-- The standalone send-telegram-message tool, translated from
`src/src/mastra/tools/telegramAdminTool.ts` (`sendTelegramMessageTool.execute`).
Unlike the workflow step, its failure results carry an error description. -/
def sendTelegramMessageTool (botToken : Option String) (net : Net SendResponse) :
    SendOutcome :=
  if !(jsTruthy botToken) then
    { success := false, error := some "Bot token not configured" }
  else
    match net with
    | .exn m => { success := false, error := some (m.getD "Unknown error") }
    | .response data =>
      if !data.ok then
        { success := false, error := some (jsOr data.description "Failed to send message") }
      else
        match data.result with
        | none => { success := false, error := some messageIdAccessFault }
        | some r => { success := true, messageId := r.message_id }

/-- Fixed denial reply prescribed by the agent instructions in the source. -/
def denialText : String := "⛔ Only admins can use this command."

/-- Fixed usage reply prescribed by the agent instructions in the source. -/
def usageText : String := "⚠️ Usage: /text <your message>"

/-- Modelled from the spec: the deterministic fallback reply for input not
recognized as a command; the spec pins it as an explicit fixed choice and
suggests empty/ignored, so the model uses the empty string. -/
def fallbackText : String := ""

/-- Whitespace test used by trimming (space, tab, newline, carriage return). -/
def isWs (c : Char) : Bool := c == ' ' || c == '\t' || c == '\n' || c == '\r'

/-- Trims whitespace from both ends of a character list. -/
def trimChars (l : List Char) : List Char :=
  ((l.dropWhile isWs).reverse.dropWhile isWs).reverse

/-- Modelled from the spec: the parsed view of an incoming message —
the `/text` command with an optional argument, or unrecognized input. -/
inductive Command where
  | textCmd (argument : Option String)
  | unrecognized
deriving DecidableEq

/-- The literal command token `/text`. -/
def commandToken : List Char := ['/', 't', 'e', 'x', 't']

/-- Strips `token` from the front of `cs`; returns the remainder when `token`
is a prefix of `cs`, and `none` otherwise. -/
def stripToken : List Char → List Char → Option (List Char)
  | [], cs => some cs
  | _ :: _, [] => none
  | t :: ts, c :: cs => if c == t then stripToken ts cs else none

/-- Drops one single separating space, when present, from the remainder after
the command token. -/
def dropOneSpace : List Char → List Char
  | ' ' :: cs => cs
  | cs => cs

/-- Modelled from the spec: command recognition and argument extraction
(spec 4.2 steps 1–2).  The message is recognized when it begins with the
literal token `/text` (case-sensitive exact prefix match); the argument is the
remainder after the token and any single separating space, trimmed; if nothing
remains the argument is absent; a message not beginning with the token is not
recognized as a command at all. -/
def parseCommand (rawMessage : String) : Command :=
  match stripToken commandToken rawMessage.data with
  | none => .unrecognized
  | some rest =>
    match trimChars (dropOneSpace rest) with
    | [] => .textCmd none
    | arg => .textCmd (some (String.mk arg))

/-- Modelled from the spec: the command policy `decide(rawMessage, verdict)`
(spec 4.2, mirroring the agent instructions in the source).  The admin check
is evaluated unconditionally before the argument is inspected: a non-admin
gets the fixed denial text regardless of message content; an admin gets the
usage text when the argument is absent, and the argument verbatim otherwise;
unrecognized input gets the fixed fallback reply. -/
def decide (rawMessage : String) (verdict : AdminVerdict) : String :=
  if !verdict.isAdmin then
    denialText
  else
    match parseCommand rawMessage with
    | .unrecognized => fallbackText
    | .textCmd none => usageText
    | .textCmd (some arg) => arg

/-- Input record of the workflow and of the `use-agent` step:
`{message, threadId, chatId, userId}`. -/
structure WorkflowInput where
  message : String
  threadId : String
  chatId : ChatId
  userId : Int
deriving DecidableEq

/-- String interpolation of a chat id into the prompt template literal. -/
def chatIdStr : ChatId → String
  | .str s => s
  | .num n => toString n

/-- The prompt the `use-agent` step builds for the agent (the template
literal in `useAgent.execute`). -/
def promptFor (message : String) (chatId : ChatId) (userId : Int) : String :=
  "\nUser message: " ++ message ++ "\nChat ID: " ++ chatIdStr chatId ++
    "\nUser ID: " ++ toString userId ++
    "\n\nPlease process this message according to your instructions.\n"

/-- The use-agent workflow step, translated from the workflow file
(`useAgent.execute`).  `generate` abstracts `telegramBotAgent.generate`, a
language-model call: the step passes it the constructed prompt and returns the
generated text together with the incoming `chatId`, unchanged. -/
def useAgent (generate : String → String) (inputData : WorkflowInput) : AgentOutput :=
  { response := generate (promptFor inputData.message inputData.chatId inputData.userId),
    chatId := inputData.chatId }

/-- Stage events of one workflow run, for stating execution order. -/
inductive Event where
  | oracleQueried
  | policyDecided
  | deliveryAttempted
deriving DecidableEq, Repr

/-- Environment of one workflow run: the bot token and the outcomes of the
two outbound round trips (the admin check and the delivery). -/
structure WorkflowEnv where
  botToken : Option String
  adminNet : Net ChatMemberResponse
  sendNet : Net SendResponse

/-- The oracle hop: runs the admin check and records its event. -/
def tracedOracle (env : WorkflowEnv) : AdminVerdict × List Event :=
  (checkTelegramAdminTool env.botToken env.adminNet, [Event.oracleQueried])

/-- The policy hop: applies `decide` to the oracle's verdict and records its
event.  Modelled from the spec for the agent-internal part: the language-model
agent is instructed to always check admin status first, and the policy takes
the verdict as input, so it runs on the oracle's completed result. -/
def tracedPolicy (message : String) (verdict : AdminVerdict) : String × List Event :=
  (decide message verdict, [Event.policyDecided])

/-- The delivery hop: runs the send-reply step on the agent stage's output and
records its event. -/
def tracedDelivery (env : WorkflowEnv) (agentOut : AgentOutput) : StepOutcome × List Event :=
  (sendReply env.botToken env.sendNet agentOut, [Event.deliveryAttempted])

/-- The telegram-bot-workflow, translated from the workflow file: the fixed
pipeline `.then(useAgent).then(sendReply)` — the agent stage (oracle, then
policy, per its instructions) completes and its output feeds the delivery
stage.  Each hop appends its event to the run's trace as it executes. -/
def telegramBotWorkflow (env : WorkflowEnv) (input : WorkflowInput) :
    StepOutcome × List Event :=
  let step1 := tracedOracle env
  let step2 := tracedPolicy input.message step1.1
  let agentOut : AgentOutput := { response := step2.1, chatId := input.chatId }
  let step3 := tracedDelivery env agentOut
  (step3.1, step1.2 ++ step2.2 ++ step3.2)

/-! Helper lemmas about parsing and trimming. -/

theorem trimChars_eq_nil (l : List Char) (h : l.all isWs = true) : trimChars l = [] := by
  have h' : ∀ c ∈ l, isWs c := by simpa [List.all_eq_true] using h
  simp [trimChars, List.dropWhile_eq_nil_iff.mpr h']

theorem dropOneSpace_all_ws (l : List Char) (h : l.all isWs = true) :
    (dropOneSpace l).all isWs = true := by
  rw [dropOneSpace.eq_def]
  split
  · simp_all [List.all_cons]
  · exact h

theorem parseCommand_token_space (l : List Char) :
    parseCommand (String.mk ('/' :: 't' :: 'e' :: 'x' :: 't' :: ' ' :: l)) =
      (match trimChars l with
       | [] => Command.textCmd none
       | arg => Command.textCmd (some (String.mk arg))) := rfl

/-! Claim theorems. -/

/-- C1: for every raw message and every verdict with `isAdmin = false`, the
policy's reply is the fixed denial text, regardless of the message content,
so a non-admin's argument is never echoed back. -/
theorem decide_nonadmin_denial (rawMessage : String) (verdict : AdminVerdict)
    (h : verdict.isAdmin = false) : decide rawMessage verdict = denialText := by
  simp [decide, h]

/-- Witness for C1 at a concrete non-admin message. -/
theorem decide_nonadmin_denial_witness :
    decide "/text secret plan" { isAdmin := false, status := some "member" } = denialText :=
  decide_nonadmin_denial "/text secret plan" { isAdmin := false, status := some "member" } rfl

/-- C2: for every successful admin-oracle query (token configured, remote
answers `ok` with a membership status string), the verdict has
`isAdmin = true` iff the status is "creator" or "administrator". -/
theorem checkAdmin_status_privileged (botToken : Option String)
    (data : ChatMemberResponse) (s : String)
    (htok : jsTruthy botToken = true) (hok : data.ok = true)
    (hres : data.result = some { status := some s }) :
    (checkTelegramAdminTool botToken (.response data)).isAdmin = true ↔
      s = "creator" ∨ s = "administrator" := by
  simp [checkTelegramAdminTool, htok, hok, hres]

/-- Witness for C2: a concrete "member" status yields a non-admin verdict. -/
theorem checkAdmin_status_privileged_witness :
    (checkTelegramAdminTool (some "token")
        (.response { ok := true, result := some { status := some "member" } })).isAdmin
      = false := by
  have h := checkAdmin_status_privileged (some "token")
    { ok := true, result := some { status := some "member" } } "member" rfl rfl rfl
  have h2 : ¬ ("member" = "creator" ∨ "member" = "administrator") := by decide
  cases hb : (checkTelegramAdminTool (some "token")
      (.response { ok := true, result := some { status := some "member" } })).isAdmin
  · rfl
  · exact absurd (h.mp hb) h2

/-- C3 counterexample: a thrown Error whose own message is the empty string is
converted to a verdict whose error description is present but empty — the
claim's "non-empty error description" fails at this input (the fail-closed
part, `isAdmin = false`, does hold). -/
theorem checkAdmin_exn_empty_error :
    (checkTelegramAdminTool (some "token") (.exn (some ""))).error = some "" ∧
    (checkTelegramAdminTool (some "token") (.exn (some ""))).isAdmin = false := by
  constructor <;> rfl

/-- C3 amended: every failure of the admin oracle — missing credential,
not-ok response, or a caught exception (including the TypeError from an
`ok` response whose `result` object is missing) — yields `isAdmin = false`
with an error description present; the description is non-empty except that a
thrown Error's empty message passes through as an empty description. -/
theorem checkAdmin_fail_closed :
    (∀ net, checkTelegramAdminTool none net =
        { isAdmin := false, status := none, error := some "Bot token not configured" }) ∧
    (∀ tok m, jsTruthy tok = true →
        checkTelegramAdminTool tok (.exn m) =
          { isAdmin := false, status := none, error := some (m.getD "Unknown error") }) ∧
    (∀ tok data, jsTruthy tok = true → data.ok = false →
        checkTelegramAdminTool tok (.response data) =
          { isAdmin := false, status := none,
            error := some (jsOr data.description "Failed to check admin status") } ∧
          jsOr data.description "Failed to check admin status" ≠ "") ∧
    (∀ tok data, jsTruthy tok = true → data.ok = true → data.result = none →
        checkTelegramAdminTool tok (.response data) =
          { isAdmin := false, status := none, error := some statusAccessFault }) := by
  refine ⟨fun net => by simp [checkTelegramAdminTool, jsTruthy],
    fun tok m htok => by simp [checkTelegramAdminTool, htok],
    fun tok data htok hok => ⟨by simp [checkTelegramAdminTool, htok, hok], ?_⟩,
    fun tok data htok hok hres => by simp [checkTelegramAdminTool, htok, hok, hres]⟩
  unfold jsOr
  match data.description with
  | none => simp
  | some s =>
    by_cases hs : s == ""
    · simp [hs]
    · simp [hs]; simpa using hs

/-- Witness for C3 (amended) at a concrete not-ok response. -/
theorem checkAdmin_fail_closed_witness :
    checkTelegramAdminTool (some "token")
        (.response { ok := false, description := some "chat not found" }) =
      { isAdmin := false, status := none, error := some "chat not found" } := by
  have h := (checkAdmin_fail_closed).2.2.1 (some "token")
    { ok := false, description := some "chat not found" } rfl rfl
  simpa [jsOr] using h.1

/-- C4: for every admin verdict and every message `"/text " ++ arg` whose
argument `arg` is non-empty and has no surrounding whitespace, the policy's
reply is exactly `arg`, verbatim — no reformatting, no truncation, no
appended commentary. -/
theorem decide_admin_verbatim (arg : String) (verdict : AdminVerdict)
    (hAdmin : verdict.isAdmin = true) (hne : arg.data ≠ [])
    (htrim : trimChars arg.data = arg.data) :
    decide ("/text " ++ arg) verdict = arg := by
  obtain ⟨l⟩ := arg
  have hmk : ("/text " ++ String.mk l) = String.mk ('/' :: 't' :: 'e' :: 'x' :: 't' :: ' ' :: l) :=
    rfl
  rw [hmk]
  simp only [decide, hAdmin, Bool.not_true, Bool.false_eq_true, if_false,
    parseCommand_token_space]
  rw [htrim]
  cases l with
  | nil => exact absurd rfl hne
  | cons c cs => rfl

/-- Witness for C4 at the spec's concrete example. -/
theorem decide_admin_verbatim_witness :
    decide ("/text " ++ "Hello everyone!") { isAdmin := true, status := some "creator" } =
      "Hello everyone!" :=
  decide_admin_verbatim "Hello everyone!" { isAdmin := true, status := some "creator" }
    rfl (by decide) (by decide)

/-- C5: for every admin verdict, a message that is exactly `"/text"` followed
only by whitespace (including none at all) yields the fixed usage text — a
whitespace-only argument is treated as absent. -/
theorem decide_admin_usage (ws : String) (verdict : AdminVerdict)
    (hAdmin : verdict.isAdmin = true) (hws : ws.data.all isWs = true) :
    decide ("/text" ++ ws) verdict = usageText := by
  obtain ⟨l⟩ := ws
  have hmk : ("/text" ++ String.mk l) = String.mk ('/' :: 't' :: 'e' :: 'x' :: 't' :: l) := rfl
  rw [hmk]
  have h1 : stripToken commandToken ('/' :: 't' :: 'e' :: 'x' :: 't' :: l) = some l := rfl
  have h2 : trimChars (dropOneSpace l) = [] :=
    trimChars_eq_nil _ (dropOneSpace_all_ws l hws)
  simp [decide, hAdmin, parseCommand, h1, h2]

/-- Witness for C5 at a whitespace-only remainder. -/
theorem decide_admin_usage_witness :
    decide ("/text" ++ "   ") { isAdmin := true, status := some "administrator" } = usageText :=
  decide_admin_usage "   " { isAdmin := true, status := some "administrator" } rfl (by decide)

/-- C6 counterexample: the workflow's delivery step returns the same bare
`{success := false}` for remote descriptions "X" and "Y" — its outcome record
has no error field, so the failure result does not carry the remote's
description, contradicting the claim for this delivery path. -/
theorem sendReply_drops_description :
    sendReply (some "token") (.response { ok := false, description := some "X" })
        { response := "hi", chatId := .num 1 } =
      sendReply (some "token") (.response { ok := false, description := some "Y" })
        { response := "hi", chatId := .num 1 } ∧
    sendReply (some "token") (.response { ok := false, description := some "X" })
        { response := "hi", chatId := .num 1 } =
      { success := false, messageId := none } := by
  constructor <;> rfl

/-- C6 amended: on a transport success with a negative acknowledgement
carrying a non-empty description "X", the standalone send tool returns
`{success := false, error := "X"}` (an empty description falls back to a fixed
message); the workflow's delivery step, whose output has no error field,
returns the bare `{success := false}` for every description. -/
theorem send_error_description (x : String) (hx : x ≠ "")
    (tok : Option String) (htok : jsTruthy tok = true)
    (d : Option String) (inputData : AgentOutput) :
    sendTelegramMessageTool tok (.response { ok := false, description := some x }) =
      { success := false, messageId := none, error := some x } ∧
    sendReply tok (.response { ok := false, description := d }) inputData =
      { success := false, messageId := none } := by
  constructor
  · simp [sendTelegramMessageTool, htok, jsOr, hx]
  · simp [sendReply, htok]

/-- Witness for C6 (amended) at a concrete remote rejection. -/
theorem send_error_description_witness :
    (sendTelegramMessageTool (some "token")
        (.response { ok := false, description := some "chat not found" }) =
      { success := false, messageId := none, error := some "chat not found" }) ∧
    (sendReply (some "token")
        (.response { ok := false, description := some "chat not found" })
        { response := "hi", chatId := .num 5 } =
      { success := false, messageId := none }) :=
  send_error_description "chat not found" (by decide) (some "token") rfl
    (some "chat not found") { response := "hi", chatId := .num 5 }

/-- C7: with the bot-token credential absent from the environment, both
delivery entry points return a failure result that is the same for every
possible network outcome — no network call is attempted, and the missing
credential is reported as a per-call result, never thrown (the embedding is a
total function). -/
theorem missing_token_no_send (net : Net SendResponse) (inputData : AgentOutput) :
    sendReply none net inputData = { success := false, messageId := none } ∧
    sendTelegramMessageTool none net =
      { success := false, messageId := none, error := some "Bot token not configured" } := by
  constructor <;> rfl

/-- C8: every workflow run executes its hops strictly in order — the oracle
is queried, then the policy decides, then delivery is attempted — and the
delivered outcome is the send-reply step applied to the policy's reply, which
itself is computed from the oracle's completed verdict; the agent stage
completes before the delivery stage starts. -/
theorem telegramBotWorkflow_order (env : WorkflowEnv) (input : WorkflowInput) :
    (telegramBotWorkflow env input).2 =
      [Event.oracleQueried, Event.policyDecided, Event.deliveryAttempted] ∧
    (telegramBotWorkflow env input).1 =
      sendReply env.botToken env.sendNet
        { response := decide input.message (checkTelegramAdminTool env.botToken env.adminNet),
          chatId := input.chatId } := by
  constructor <;> rfl

/-- C9 counterexample: a remote answer `{ok: true, result: {}}` (a result
object without `message_id`) makes the delivery step return success with no
messageId — `success = true` while `messageId` is absent, refuting
"messageId present iff success". -/
theorem sendReply_success_without_messageId :
    ((sendReply (some "token") (.response { ok := true, result := some { message_id := none } })
        { response := "hi", chatId := .num 1 }).success = true) ∧
    ((sendReply (some "token") (.response { ok := true, result := some { message_id := none } })
        { response := "hi", chatId := .num 1 }).messageId = none) := by
  constructor <;> rfl

/-- C9 amended: for every outcome of the delivery step, a present `messageId`
implies `success = true`; every failure result is exactly `{success := false}`
with no messageId (and the step's output type carries no error field at all);
the converse direction holds only when the remote's `result` object actually
contains a `message_id`. -/
theorem sendReply_outcome_shape (tok : Option String) (net : Net SendResponse)
    (inputData : AgentOutput) :
    ((sendReply tok net inputData).success = false →
      sendReply tok net inputData = { success := false, messageId := none }) ∧
    ((sendReply tok net inputData).messageId.isSome = true →
      (sendReply tok net inputData).success = true) ∧
    (∀ data mid, net = .response data → jsTruthy tok = true → data.ok = true →
      data.result = some { message_id := some mid } →
      sendReply tok net inputData = { success := true, messageId := some mid }) := by
  refine ⟨?_, ?_, ?_⟩
  · unfold sendReply
    split
    · exact fun _ => rfl
    · split
      · exact fun _ => rfl
      · split
        · exact fun _ => rfl
        · split
          · exact fun _ => rfl
          · simp
  · unfold sendReply
    split
    · simp
    · split
      · simp
      · split
        · simp
        · split
          · simp
          · simp
  · intro data mid hnet htok hok hres
    subst hnet
    simp [sendReply, htok, hok, hres]

/-- Witness for C9 (amended) at a concrete failed and a concrete successful
delivery. -/
theorem sendReply_outcome_shape_witness :
    (sendReply none (.exn none) { response := "hi", chatId := .num 1 } =
      { success := false, messageId := none }) ∧
    (sendReply (some "token")
        (.response { ok := true, result := some { message_id := some 7 } })
        { response := "hi", chatId := .num 1 } =
      { success := true, messageId := some 7 }) :=
  ⟨(sendReply_outcome_shape none (.exn none) { response := "hi", chatId := .num 1 }).1 rfl,
    (sendReply_outcome_shape (some "token")
        (.response { ok := true, result := some { message_id := some 7 } })
        { response := "hi", chatId := .num 1 }).2.2
      { ok := true, result := some { message_id := some 7 } } 7 rfl rfl rfl rfl⟩

/-- C10: for every generate function and every input, the agent step's output
chatId equals the incoming request's chatId unchanged, so the reply is
delivered to the chat the command came from. -/
theorem useAgent_preserves_chatId (generate : String → String)
    (inputData : WorkflowInput) :
    (useAgent generate inputData).chatId = inputData.chatId := rfl

end Bot
